import Mathlib

/-!
Shallow embedding of the deployment pipeline of `src/backend_app.py`:
the function `deploy_contract_backend` (lines 40-139) and the
constructor-argument computation of the `deploy_token` route
(lines 166-182), together with theorems checking the specification's
claims against it.

Every external call the Python code makes (the web3 chain client, key
derivation, the filesystem, JSON parsing, signing) is modelled by an
`Env` record that fixes, for one run, the outcome of each call: a normal
return, or a raised Python exception carrying its stringified message.
The embedded function additionally returns the ordered trace of external
calls it performed, so that claims about which calls happen (or do not
happen) can be stated.
-/

namespace BackendApp

/-- Outcome of one fallible external call: a normal return, or a raised
Python exception carrying its message string (what `str(e)` yields when
the handlers at lines 84-92 and 137-139 interpolate the exception). -/
inductive ExcResult (α : Type) where
  | ok (a : α)
  | exn (msg : String)
deriving DecidableEq

/-- What the block at lines 62-71 observes about the artifact file:
`open` can raise `FileNotFoundError` (caught at line 67), it can raise
another `OSError` such as `PermissionError` (caught only by the outer
handler at line 137), `json.load` can raise `json.JSONDecodeError`
(caught at line 70), or a JSON object is produced whose `abi` and
`bytecode` keys are each present or absent.  `contract_json['abi']`
raises `KeyError('abi')` when the key is absent, and Python renders that
exception as `'abi'`; neither inner handler catches a `KeyError`. -/
inductive FileContent where
  | notFound
  | ioError (msg : String)
  | badJson
  | doc (abi : Option String) (bytecode : Option String)
deriving DecidableEq

/-- Transaction receipt as consumed at lines 121-124: `status` is
compared with `1`, `contractAddress` is returned on success. -/
structure Receipt where
  status : Nat
  contractAddress : String
deriving DecidableEq

/-- Outcome of `w3.eth.wait_for_transaction_receipt(tx_hash, timeout=300)`
at line 119: a mined receipt; a `web3.exceptions.TimeExhausted` raised
once the timeout elapses, whose message web3 formats as
`f"Transaction \x7btransaction_hash!r\x7d is not in the chain after \x7btimeout\x7d seconds"`;
or any other exception.  Both exception cases reach only the outer
handler at line 137. -/
inductive WaitOutcome where
  | mined (r : Receipt)
  | timedOut
  | failed (msg : String)
deriving DecidableEq

/-- The behaviour of the external world during one run of
`deploy_contract_backend`: one field per external call site, in source
order.  `gasPriceDiag` is the diagnostic `w3.eth.gas_price` read inside
the gas-estimation failure handler (line 88); `gasPriceMain` is the
`w3.eth.gas_price` read at line 95.  `getTransaction` is the diagnostic
`w3.eth.get_transaction` at line 130; its outcome is only printed, which
is why the embedding never consults it. -/
structure Env where
  rpcUrl : String
  isConnected : ExcResult Bool
  pathExists : Bool
  fromKey : ExcResult String
  fileContent : FileContent
  getNonce : ExcResult Nat
  estimateGas : ExcResult Nat
  gasPriceDiag : ExcResult Nat
  gasPriceMain : ExcResult Nat
  chainId : ExcResult Nat
  buildData : ExcResult String
  signTx : ExcResult String
  submit : ExcResult String
  waitReceipt : WaitOutcome
  getTransaction : ExcResult Unit

/-- The transaction dict built at lines 102-108.  The Python key `'from'`
is rendered as `fromAddr`; `gas` is the gas limit; `data` is the encoded
constructor call produced by `build_transaction`. -/
structure UnsignedTx where
  fromAddr : String
  nonce : Nat
  gas : Nat
  gasPrice : Nat
  chainId : Nat
  data : String
deriving DecidableEq

/-- One observable external call, recorded in source order in the trace
returned by the embedded function. -/
inductive Event where
  | isConnectedCall
  | nonceCall
  | estimateGasCall
  | gasPriceCall
  | chainIdCall
  | buildCall (tx : UnsignedTx)
  | signCall
  | submitCall (txHash : String)
  | waitReceiptCall (timeout : Nat)
  | getTransactionCall
deriving DecidableEq

/-- Recognises a `send_raw_transaction` submission in the trace. -/
def Event.isSubmit : Event → Bool
  | .submitCall _ => true
  | _ => false

/-- A Python dict with string keys and values, as an association list in
insertion order.  Every value `deploy_contract_backend` returns is such
a dict literal with a single entry. -/
abbrev PyDict := List (String × String)

/-- Boundary outcome of calling the Python function: either it returns a
dict, or an exception escapes it to the caller. -/
inductive PyOutcome where
  | ret (d : PyDict)
  | raised (msg : String)
deriving DecidableEq

/-- Line 43. -/
def keyMissingMsg : String :=
  "Private key not configured in environment variables."

/-- Line 45. -/
def pathMissingMsg : String :=
  "CONTRACT_ARTIFACT_PATH environment variable not set."

/-- Line 47; interpolates the module-level `RPC_URL`. -/
def notConnectedMsg (rpc : String) : String :=
  "Backend not connected to network. RPC_URL: " ++ rpc

/-- Line 52 (the pre-open existence check). -/
def notFoundMsg1 (path : String) : String :=
  "Contract artifact file not found at " ++ path ++
    ". Ensure contract is compiled and path is correct."

/-- Line 69 (the `FileNotFoundError` handler). -/
def notFoundMsg2 (path : String) : String :=
  "Contract artifact file not found at " ++ path ++ ". Ensure contract is compiled."

/-- Line 71 (the `json.JSONDecodeError` handler). -/
def badJsonMsg (path : String) : String :=
  "Could not decode JSON from " ++ path ++ ". Ensure it's a valid JSON file."

/-- Line 92 (the gas-estimation failure return). -/
def estimateGasErrorMsg (e : String) : String :=
  "Error estimating gas: " ++ e ++ ". Check testnet ETH balance and constructor args."

/-- Line 135 (receipt mined with status 0). -/
def revertedMsg : String :=
  "Transaction failed during deployment. Check testnet explorer."

/-- Line 139 (the outer catch-all handler). -/
def unexpectedErrorMsg (e : String) : String :=
  "An unexpected error occurred: " ++ e

/-- The message of the `TimeExhausted` exception that web3's
`wait_for_transaction_receipt` raises when the receipt is not observed
within `timeout`: `transaction_hash!r` rendered as the hash text the
submission returned. -/
def timeExhaustedMsg (txHash : String) (timeout : Nat) : String :=
  "Transaction " ++ txHash ++ " is not in the chain after " ++
    toString timeout ++ " seconds"

/-- `w3.to_wei(n, 'gwei')` for a whole number of gwei: 10^9 wei each. -/
def to_wei_gwei (n : Nat) : Nat := n * 10 ^ 9

/-- The body of the `try` block, lines 55-135, returning the dict it
produces together with the trace of external calls, assuming the checks
of lines 42-52 have already passed.  An exception that reaches the outer
handler (line 137) is collapsed here to the `unexpectedErrorMsg` dict
that handler returns (line 139), which is exactly what the caller
observes: the handler prints the exception and returns the dict. -/
def deployBody (env : Env) (artifact_path : String) : PyDict × List Event :=
  match env.fromKey with
  | .exn e => ([("error", unexpectedErrorMsg e)], [])
  | .ok account_address =>
    match env.fileContent with
    | .notFound => ([("error", notFoundMsg2 artifact_path)], [])
    | .ioError e => ([("error", unexpectedErrorMsg e)], [])
    | .badJson => ([("error", badJsonMsg artifact_path)], [])
    | .doc abiField bytecodeField =>
      match abiField with
      | none => ([("error", unexpectedErrorMsg "'abi'")], [])
      | some _abi =>
        match bytecodeField with
        | none => ([("error", unexpectedErrorMsg "'bytecode'")], [])
        | some _bytecode =>
          match env.getNonce with
          | .exn e => ([("error", unexpectedErrorMsg e)], [.nonceCall])
          | .ok nonce =>
            match env.estimateGas with
            | .exn e =>
              ([("error", estimateGasErrorMsg e)],
               [.nonceCall, .estimateGasCall, .gasPriceCall])
            | .ok gas_estimate =>
              let gas_price_to_use : Nat :=
                match env.gasPriceMain with
                | .ok p => p
                | .exn _ => to_wei_gwei 1
              match env.chainId with
              | .exn e =>
                ([("error", unexpectedErrorMsg e)],
                 [.nonceCall, .estimateGasCall, .gasPriceCall, .chainIdCall])
              | .ok chain_id =>
                match env.buildData with
                | .exn e =>
                  ([("error", unexpectedErrorMsg e)],
                   [.nonceCall, .estimateGasCall, .gasPriceCall, .chainIdCall])
                | .ok data =>
                  let transaction : UnsignedTx :=
                    { fromAddr := account_address, nonce := nonce,
                      gas := gas_estimate + 100000, gasPrice := gas_price_to_use,
                      chainId := chain_id, data := data }
                  match env.signTx with
                  | .exn e =>
                    ([("error", unexpectedErrorMsg e)],
                     [.nonceCall, .estimateGasCall, .gasPriceCall, .chainIdCall,
                      .buildCall transaction])
                  | .ok _signed_transaction =>
                    match env.submit with
                    | .exn e =>
                      ([("error", unexpectedErrorMsg e)],
                       [.nonceCall, .estimateGasCall, .gasPriceCall, .chainIdCall,
                        .buildCall transaction, .signCall])
                    | .ok tx_hash =>
                      match env.waitReceipt with
                      | .timedOut =>
                        ([("error", unexpectedErrorMsg (timeExhaustedMsg tx_hash 300))],
                         [.nonceCall, .estimateGasCall, .gasPriceCall, .chainIdCall,
                          .buildCall transaction, .signCall, .submitCall tx_hash,
                          .waitReceiptCall 300])
                      | .failed e =>
                        ([("error", unexpectedErrorMsg e)],
                         [.nonceCall, .estimateGasCall, .gasPriceCall, .chainIdCall,
                          .buildCall transaction, .signCall, .submitCall tx_hash,
                          .waitReceiptCall 300])
                      | .mined tx_receipt =>
                        if tx_receipt.status = 1 then
                          ([("contractAddress", tx_receipt.contractAddress)],
                           [.nonceCall, .estimateGasCall, .gasPriceCall, .chainIdCall,
                            .buildCall transaction, .signCall, .submitCall tx_hash,
                            .waitReceiptCall 300])
                        else
                          ([("error", revertedMsg)],
                           [.nonceCall, .estimateGasCall, .gasPriceCall, .chainIdCall,
                            .buildCall transaction, .signCall, .submitCall tx_hash,
                            .waitReceiptCall 300, .getTransactionCall])

/-- `deploy_contract_backend(w3_instance, artifact_path, private_key,
constructor_args)`, lines 40-139.  `w3IsNone` models `w3_instance` being
`None`; Python string truthiness makes `if not private_key` the test
`private_key = ""`, and likewise for the artifact path.  The
`constructor_args` parameter of the Python function flows only into the
gas-estimation and transaction-encoding calls, which the `Env` already
models, so it is not a separate parameter here.  The connectivity probe
`w3_instance.is_connected()` at line 46 sits outside the `try` that
starts at line 55, so an exception it raises escapes the function.  The
second component is the ordered trace of external calls performed. -/
def deploy_contract_backend (env : Env) (w3IsNone : Bool)
    (artifact_path private_key : String) : PyOutcome × List Event :=
  if private_key = "" then
    (.ret [("error", keyMissingMsg)], [])
  else if artifact_path = "" then
    (.ret [("error", pathMissingMsg)], [])
  else if w3IsNone then
    (.ret [("error", notConnectedMsg env.rpcUrl)], [])
  else
    match env.isConnected with
    | .exn e => (.raised e, [.isConnectedCall])
    | .ok connected =>
      if !connected then
        (.ret [("error", notConnectedMsg env.rpcUrl)], [.isConnectedCall])
      else if !env.pathExists then
        (.ret [("error", notFoundMsg1 artifact_path)], [.isConnectedCall])
      else
        (.ret (deployBody env artifact_path).1,
         .isConnectedCall :: (deployBody env artifact_path).2)

/-- A Python value appearing in the `constructor_arguments` list built at
lines 177-182 of `deploy_token`. -/
inductive ConstructorArg where
  | str (s : String)
  | int (n : ℤ)
deriving DecidableEq

/-- `w3.to_wei(x, 'ether')` for a non-negative value exactly
representable as a rational: eth_utils converts a float argument through
`Decimal(str(number))`, multiplies by 10^18 wei per ether and truncates
with `int(...)`; Python's `str(0.01)` is `"0.01"`, i.e. exactly `1/100`,
and for the non-negative exact values used here truncation agrees with
the floor. -/
def to_wei_ether (x : ℚ) : ℤ := ⌊x * 10 ^ 18⌋

/-- `lp_migration_market_cap_wei` as computed at lines 169-174 of
`deploy_token`: `w3.to_wei(0.01, 'ether')` when the module-level client
is connected, the literal `10**16` in the fallback branch otherwise. -/
def lp_migration_market_cap_wei (connected : Bool) : ℤ :=
  if connected then to_wei_ether (1 / 100) else 10 ^ 16

/-- `constructor_arguments` as built at lines 177-182 of `deploy_token`:
name, symbol, migration threshold, fee recipient, in that order. -/
def constructor_arguments (token_name token_symbol : String) (connected : Bool)
    (fee_recipient : String) : List ConstructorArg :=
  [.str token_name, .str token_symbol,
   .int (lp_migration_market_cap_wei connected), .str fee_recipient]

/-- The catalogue of failure reasons the orchestrator can return: each
is a fixed human-readable sentence identifying the stage that failed, at
most embedding the message string of the underlying exception.  No
exception object, stack trace or key material occurs: only these
sentences over the module's `RPC_URL`, the artifact path, and exception
message strings. -/
def isStageTaggedReason (rpc path r : String) : Prop :=
  r = keyMissingMsg ∨
  r = pathMissingMsg ∨
  r = notConnectedMsg rpc ∨
  r = notFoundMsg1 path ∨
  r = notFoundMsg2 path ∨
  r = badJsonMsg path ∨
  (∃ e, r = estimateGasErrorMsg e) ∨
  r = revertedMsg ∨
  (∃ e, r = unexpectedErrorMsg e)

/-- A Python dict with exactly one entry, whose key is either
`contractAddress` or `error`. -/
def singleKeyRecord (d : PyDict) : Prop :=
  ∃ v, d = [("contractAddress", v)] ∨ d = [("error", v)]

/-- A fully successful external world, the base for the concrete runs
that instantiate the theorems with hypotheses. -/
def baseEnv : Env where
  rpcUrl := "http://node.example:8545"
  isConnected := .ok true
  pathExists := true
  fromKey := .ok "0xSenderAddress"
  fileContent := .doc (some "[]") (some "0x6003600501")
  getNonce := .ok 5
  estimateGas := .ok 21000
  gasPriceDiag := .ok 2000000000
  gasPriceMain := .ok 1
  chainId := .ok 31337
  buildData := .ok "0xconstructorcode"
  signTx := .ok "0xsignedrawtx"
  submit := .ok "0xtxhash"
  waitReceipt := .mined { status := 1, contractAddress := "0xDeployedContract" }
  getTransaction := .ok ()

/-- The external world of `baseEnv`, except that the artifact file
parses as JSON but has no `abi` key. -/
def envNoAbi : Env :=
  { baseEnv with fileContent := .doc none (some "0x6003600501") }

/-- The external world of `baseEnv`, except that the receipt poll runs
into its timeout. -/
def envTimeout : Env := { baseEnv with waitReceipt := .timedOut }

/-- The external world of `baseEnv`, except that the live gas-price
query raises. -/
def envPriceFail : Env := { baseEnv with gasPriceMain := .exn "price rpc down" }

/-- The external world of `baseEnv`, except that gas estimation raises
and so does the diagnostic gas-price lookup of its error handler. -/
def envEstFail : Env :=
  { baseEnv with estimateGas := .exn "execution reverted",
                 gasPriceDiag := .exn "price rpc down" }

/-- The external world of `baseEnv`, except that the artifact path does
not resolve to an existing file. -/
def envNoFile : Env := { baseEnv with pathExists := false }

/-- The external world of `baseEnv`, except that the connectivity probe
itself raises — web3's `is_connected` propagates exceptions such as a
failing internal assertion on a malformed node response. -/
def envProbeRaises : Env :=
  { baseEnv with isConnected := .exn "malformed node response" }

/-- Another external world whose connectivity probe raises, used to show
that the raw exception — not a failure record — reaches the caller. -/
def envProbeRaisesReset : Env :=
  { baseEnv with isConnected := .exn "connection reset by peer" }

/-- The transaction built by the concrete run of `baseEnv`. -/
def builtTxC5 : UnsignedTx :=
  { fromAddr := "0xSenderAddress", nonce := 5, gas := 121000, gasPrice := 1,
    chainId := 31337, data := "0xconstructorcode" }

theorem to_wei_ether_centi : to_wei_ether (1 / 100) = 10 ^ 16 := by
  unfold to_wei_ether
  rw [show ((1 : ℚ) / 100) * 10 ^ 18 = ((10 ^ 16 : ℤ) : ℚ) by norm_num]
  exact Int.floor_intCast _

theorem stage_keyMissing (rpc path : String) :
    isStageTaggedReason rpc path keyMissingMsg := Or.inl rfl

theorem stage_pathMissing (rpc path : String) :
    isStageTaggedReason rpc path pathMissingMsg := Or.inr (Or.inl rfl)

theorem stage_notConnected (rpc path : String) :
    isStageTaggedReason rpc path (notConnectedMsg rpc) := Or.inr (Or.inr (Or.inl rfl))

theorem stage_notFound1 (rpc path : String) :
    isStageTaggedReason rpc path (notFoundMsg1 path) :=
  Or.inr (Or.inr (Or.inr (Or.inl rfl)))

theorem stage_notFound2 (rpc path : String) :
    isStageTaggedReason rpc path (notFoundMsg2 path) :=
  Or.inr (Or.inr (Or.inr (Or.inr (Or.inl rfl))))

theorem stage_badJson (rpc path : String) :
    isStageTaggedReason rpc path (badJsonMsg path) :=
  Or.inr (Or.inr (Or.inr (Or.inr (Or.inr (Or.inl rfl)))))

theorem stage_estimateGas (rpc path e : String) :
    isStageTaggedReason rpc path (estimateGasErrorMsg e) :=
  Or.inr (Or.inr (Or.inr (Or.inr (Or.inr (Or.inr (Or.inl ⟨e, rfl⟩))))))

theorem stage_reverted (rpc path : String) :
    isStageTaggedReason rpc path revertedMsg :=
  Or.inr (Or.inr (Or.inr (Or.inr (Or.inr (Or.inr (Or.inr (Or.inl rfl)))))))

theorem stage_unexpected (rpc path e : String) :
    isStageTaggedReason rpc path (unexpectedErrorMsg e) :=
  Or.inr (Or.inr (Or.inr (Or.inr (Or.inr (Or.inr (Or.inr (Or.inr ⟨e, rfl⟩)))))))

/-- Every error entry a `deployBody` dict can carry is one of the fixed
stage-tagged reasons, for every behaviour of the external world. -/
theorem deployBody_reason (env : Env) (path r : String)
    (hmem : ("error", r) ∈ (deployBody env path).1) :
    isStageTaggedReason env.rpcUrl path r := by
  unfold deployBody at hmem
  repeat' split at hmem
  all_goals simp at hmem
  all_goals
    (subst hmem;
     first
       | exact stage_notFound2 _ _
       | exact stage_badJson _ _
       | exact stage_reverted _ _
       | exact stage_estimateGas _ _ _
       | exact stage_unexpected _ _ _)

/-- Every error entry of any dict `deploy_contract_backend` returns is
one of the fixed stage-tagged reasons. -/
theorem deploy_ret_reason (env : Env) (w3IsNone : Bool)
    (artifact_path private_key : String) (d : PyDict) (r : String)
    (hret : (deploy_contract_backend env w3IsNone artifact_path private_key).1 = .ret d)
    (hmem : ("error", r) ∈ d) :
    isStageTaggedReason env.rpcUrl artifact_path r := by
  unfold deploy_contract_backend at hret
  repeat' split at hret
  all_goals first
    | (injection hret with h; subst h;
       first
         | exact deployBody_reason _ _ _ hmem
         | (simp at hmem;
            subst hmem;
            first
              | exact stage_keyMissing _ _
              | exact stage_pathMissing _ _
              | exact stage_notConnected _ _
              | exact stage_notFound1 _ _))
    | injection hret

/-- Whenever the connectivity probe returns rather than raises, the
function returns a dict: no exception escapes it. -/
theorem deploy_ret_of_conn (env : Env) (w3IsNone : Bool)
    (artifact_path private_key : String) (b : Bool)
    (hconn : env.isConnected = .ok b) :
    ∃ d, (deploy_contract_backend env w3IsNone artifact_path private_key).1 = .ret d := by
  by_cases hk : private_key = ""
  · refine ⟨[("error", keyMissingMsg)], ?_⟩
    simp [deploy_contract_backend, hk]
  · by_cases hp : artifact_path = ""
    · refine ⟨[("error", pathMissingMsg)], ?_⟩
      simp [deploy_contract_backend, hk, hp]
    · cases w3IsNone with
      | true =>
        refine ⟨[("error", notConnectedMsg env.rpcUrl)], ?_⟩
        simp [deploy_contract_backend, hk, hp]
      | false =>
        cases b with
        | false =>
          refine ⟨[("error", notConnectedMsg env.rpcUrl)], ?_⟩
          simp [deploy_contract_backend, hk, hp, hconn]
        | true =>
          cases hpe : env.pathExists with
          | false =>
            refine ⟨[("error", notFoundMsg1 artifact_path)], ?_⟩
            simp [deploy_contract_backend, hk, hp, hconn, hpe]
          | true =>
            refine ⟨(deployBody env artifact_path).1, ?_⟩
            simp [deploy_contract_backend, hk, hp, hconn, hpe]

/-- C1 counterexample: when the connectivity probe raises — the probe at
line 46 sits outside the `try` that starts at line 55 — the internal
exception reaches the caller and no value is returned at all, so the
value returned to the caller is not a stage-tagged failure record. -/
theorem probe_exception_reaches_caller_ce :
    (deploy_contract_backend envProbeRaisesReset false "artifact.json" "0xkey").1 =
      .raised "connection reset by peer" := rfl

/-- C1 (amended): provided the connectivity probe returns rather than
raises, the pipeline always hands the caller a returned dict — never an
escaping exception — every failure entry of which carries a single
human-readable, stage-tagged reason from the fixed catalogue, never an
exception object, a stack trace, or anything beyond those sentences; and
the returned value does not depend on the (non-empty) private key at
all, so no secret key material the code handles can flow into it. -/
theorem deploy_failure_reasons_stage_tagged (env : Env) (w3IsNone : Bool)
    (artifact_path private_key : String) (b : Bool)
    (hconn : env.isConnected = .ok b) :
    (∃ d, (deploy_contract_backend env w3IsNone artifact_path private_key).1 = .ret d ∧
       ∀ r, ("error", r) ∈ d → isStageTaggedReason env.rpcUrl artifact_path r) ∧
    (∀ k, private_key ≠ "" → k ≠ "" →
        deploy_contract_backend env w3IsNone artifact_path k =
          deploy_contract_backend env w3IsNone artifact_path private_key) := by
  constructor
  · obtain ⟨d, hd⟩ := deploy_ret_of_conn env w3IsNone artifact_path private_key b hconn
    exact ⟨d, hd, fun r hr =>
      deploy_ret_reason env w3IsNone artifact_path private_key d r hd hr⟩
  · intro k hpk hk
    unfold deploy_contract_backend
    rw [if_neg hk, if_neg hpk]

/-- C1 witness: on a concrete failing run (empty key, probe returning)
the returned record's reason is catalogued and stage-tagged, and two
concrete distinct non-empty keys yield identical results under the same
external behaviour. -/
theorem deploy_failure_reasons_witness :
    isStageTaggedReason baseEnv.rpcUrl "artifact.json" keyMissingMsg ∧
    deploy_contract_backend baseEnv false "artifact.json" "0xk2" =
      deploy_contract_backend baseEnv false "artifact.json" "0xk1" := by
  constructor
  · obtain ⟨d, hd, hall⟩ :=
      (deploy_failure_reasons_stage_tagged baseEnv false "artifact.json" "" true rfl).1
    have hd2 : d = [("error", keyMissingMsg)] := by
      have h3 : PyOutcome.ret d = .ret [("error", keyMissingMsg)] := hd.symm.trans rfl
      injection h3
    subst hd2
    exact hall keyMissingMsg (by simp)
  · exact (deploy_failure_reasons_stage_tagged baseEnv false "artifact.json" "0xk1"
      true rfl).2 "0xk2" (by decide) (by decide)

/-- C4: with an absent (empty) private key the pipeline returns the
configuration-error record of line 43 and the external-call trace is
empty: no chain-client operation of any kind is invoked. -/
theorem empty_key_config_error_no_calls (env : Env) (w3IsNone : Bool)
    (artifact_path : String) :
    deploy_contract_backend env w3IsNone artifact_path "" =
      (.ret [("error", keyMissingMsg)], []) := by
  rfl

/-- C2 counterexample: an artifact whose content parses but lacks the
`abi` field makes the pipeline return the generic unexpected-error
report — the `KeyError('abi')` raised at line 65 is caught only by the
outer handler at line 137 — and not the JSON-decode (`Malformed`)
load-time error of line 71. -/
theorem missing_abi_generic_error_ce :
    (deploy_contract_backend envNoAbi false "artifact.json" "0xkey").1 =
      .ret [("error", unexpectedErrorMsg "'abi'")] ∧
    unexpectedErrorMsg "'abi'" ≠ badJsonMsg "artifact.json" :=
  ⟨rfl, by decide⟩

/-- C2 (amended): an artifact file whose content parses but lacks the
`abi` key — or has `abi` but lacks `bytecode` — makes the pipeline
return the failure record of the generic unexpected-error handler,
naming the missing key, because the `KeyError` escapes both load-time
handlers; it is a failure record rather than a crash, but it is not the
JSON-decode (`Malformed`) load-time error, which only content that fails
to parse produces. -/
theorem missing_field_unexpected_error (env : Env) (w3IsNone : Bool)
    (artifact_path private_key : String) (abiField bytecodeField : Option String)
    (a : String)
    (hk : private_key ≠ "") (hp : artifact_path ≠ "") (hw : w3IsNone = false)
    (hc : env.isConnected = .ok true) (hpe : env.pathExists = true)
    (ha : env.fromKey = .ok a)
    (hf : env.fileContent = .doc abiField bytecodeField) :
    (abiField = none →
      (deploy_contract_backend env w3IsNone artifact_path private_key).1 =
        .ret [("error", unexpectedErrorMsg "'abi'")]) ∧
    (∀ s, abiField = some s → bytecodeField = none →
      (deploy_contract_backend env w3IsNone artifact_path private_key).1 =
        .ret [("error", unexpectedErrorMsg "'bytecode'")]) := by
  subst hw
  constructor
  · intro h1
    subst h1
    simp [deploy_contract_backend, deployBody, hk, hp, hc, hpe, ha, hf]
  · intro s h1 h2
    subst h1
    subst h2
    simp [deploy_contract_backend, deployBody, hk, hp, hc, hpe, ha, hf]

/-- C2 witness: the amended behaviour evaluated on a concrete run whose
artifact lacks the `abi` key. -/
theorem missing_field_unexpected_error_witness :
    (deploy_contract_backend envNoAbi false "artifact.json" "0xkey").1 =
      .ret [("error", unexpectedErrorMsg "'abi'")] :=
  (missing_field_unexpected_error envNoAbi false "artifact.json" "0xkey"
    none (some "0x6003600501") "0xSenderAddress"
    (by decide) (by decide) rfl rfl rfl rfl rfl).1 rfl

/-- C3: when the receipt is not observed within the fixed 300-unit
polling timeout, the pipeline fails with a reason reporting that
timeout — the wrapped `TimeExhausted` message naming the transaction and
the 300-second bound — and the trace contains exactly one submission:
the transaction is never submitted a second time. -/
theorem receipt_timeout_single_submission (env : Env)
    (artifact_path private_key a abi bytecode data signed tx_hash : String)
    (nonce gas_estimate chain_id : Nat)
    (hk : private_key ≠ "") (hp : artifact_path ≠ "")
    (hc : env.isConnected = .ok true) (hpe : env.pathExists = true)
    (ha : env.fromKey = .ok a)
    (hf : env.fileContent = .doc (some abi) (some bytecode))
    (hn : env.getNonce = .ok nonce)
    (he : env.estimateGas = .ok gas_estimate)
    (hcid : env.chainId = .ok chain_id)
    (hb : env.buildData = .ok data)
    (hs : env.signTx = .ok signed)
    (hsub : env.submit = .ok tx_hash)
    (hw : env.waitReceipt = .timedOut) :
    (deploy_contract_backend env false artifact_path private_key).1 =
      .ret [("error", unexpectedErrorMsg (timeExhaustedMsg tx_hash 300))] ∧
    ((deploy_contract_backend env false artifact_path private_key).2).countP
      Event.isSubmit = 1 := by
  cases hgpm : env.gasPriceMain <;>
    refine ⟨?_, ?_⟩ <;>
      simp [deploy_contract_backend, deployBody, hk, hp, hc, hpe, ha, hf, hn, he,
        hcid, hb, hs, hsub, hw, hgpm, List.countP_cons, Event.isSubmit]

/-- C3 witness: the timeout behaviour evaluated on a concrete run. -/
theorem receipt_timeout_witness :
    (deploy_contract_backend envTimeout false "artifact.json" "0xkey").1 =
      .ret [("error", unexpectedErrorMsg (timeExhaustedMsg "0xtxhash" 300))] ∧
    ((deploy_contract_backend envTimeout false "artifact.json" "0xkey").2).countP
      Event.isSubmit = 1 :=
  receipt_timeout_single_submission envTimeout "artifact.json" "0xkey"
    "0xSenderAddress" "[]" "0x6003600501" "0xconstructorcode" "0xsignedrawtx"
    "0xtxhash" 5 21000 31337
    (by decide) (by decide) rfl rfl rfl rfl rfl rfl rfl rfl rfl rfl rfl

/-- C5: every transaction the pipeline successfully builds carries a gas
limit equal to the gas estimate plus exactly 100000 and the chain id
that the chain client reported. -/
theorem built_tx_gas_buffer_chain_id (env : Env) (w3IsNone : Bool)
    (artifact_path private_key : String) (gas_estimate chain_id : Nat)
    (he : env.estimateGas = .ok gas_estimate)
    (hcid : env.chainId = .ok chain_id) (tx : UnsignedTx)
    (hmem : Event.buildCall tx ∈
      (deploy_contract_backend env w3IsNone artifact_path private_key).2) :
    tx.gas = gas_estimate + 100000 ∧ tx.chainId = chain_id := by
  unfold deploy_contract_backend at hmem
  repeat' split at hmem
  all_goals (try simp only [deployBody, he, hcid] at hmem)
  all_goals (repeat' split at hmem)
  all_goals simp at hmem
  all_goals (subst hmem; exact ⟨rfl, rfl⟩)

/-- C5 witness: with gas estimate 21000 the built transaction's gas
limit is 121000, and its chain id is the reported 31337. -/
theorem built_tx_witness :
    builtTxC5.gas = 121000 ∧ builtTxC5.chainId = 31337 :=
  built_tx_gas_buffer_chain_id baseEnv false "artifact.json" "0xkey" 21000 31337
    rfl rfl builtTxC5 (by decide)

/-- C6: if gas estimation succeeded but the live gas-price query raised,
the pipeline does not abort: the transaction is built with the fixed
fallback price of 10^9 wei (1 gwei in the chain's smallest
denomination), and the run still signs the transaction and submits
it. -/
theorem gas_price_fallback_proceeds (env : Env)
    (artifact_path private_key a abi bytecode data signed tx_hash emsg : String)
    (nonce gas_estimate chain_id : Nat)
    (hk : private_key ≠ "") (hp : artifact_path ≠ "")
    (hc : env.isConnected = .ok true) (hpe : env.pathExists = true)
    (ha : env.fromKey = .ok a)
    (hf : env.fileContent = .doc (some abi) (some bytecode))
    (hn : env.getNonce = .ok nonce)
    (he : env.estimateGas = .ok gas_estimate)
    (hgp : env.gasPriceMain = .exn emsg)
    (hcid : env.chainId = .ok chain_id)
    (hb : env.buildData = .ok data)
    (hs : env.signTx = .ok signed)
    (hsub : env.submit = .ok tx_hash) :
    Event.buildCall
        { fromAddr := a, nonce := nonce, gas := gas_estimate + 100000,
          gasPrice := 10 ^ 9, chainId := chain_id, data := data } ∈
      (deploy_contract_backend env false artifact_path private_key).2 ∧
    Event.signCall ∈ (deploy_contract_backend env false artifact_path private_key).2 ∧
    Event.submitCall tx_hash ∈
      (deploy_contract_backend env false artifact_path private_key).2 := by
  cases hwr : env.waitReceipt with
  | mined r =>
    by_cases hst : r.status = 1 <;>
      refine ⟨?_, ?_, ?_⟩ <;>
        simp [deploy_contract_backend, deployBody, hk, hp, hc, hpe, ha, hf, hn, he,
          hgp, hcid, hb, hs, hsub, hwr, hst, to_wei_gwei]
  | timedOut =>
    refine ⟨?_, ?_, ?_⟩ <;>
      simp [deploy_contract_backend, deployBody, hk, hp, hc, hpe, ha, hf, hn, he,
        hgp, hcid, hb, hs, hsub, hwr, to_wei_gwei]
  | failed e =>
    refine ⟨?_, ?_, ?_⟩ <;>
      simp [deploy_contract_backend, deployBody, hk, hp, hc, hpe, ha, hf, hn, he,
        hgp, hcid, hb, hs, hsub, hwr, to_wei_gwei]

/-- C6 witness: the fallback behaviour evaluated on a concrete run whose
gas-price query raises. -/
theorem gas_price_fallback_witness :
    Event.buildCall
        { fromAddr := "0xSenderAddress", nonce := 5, gas := 121000,
          gasPrice := 10 ^ 9, chainId := 31337, data := "0xconstructorcode" } ∈
      (deploy_contract_backend envPriceFail false "artifact.json" "0xkey").2 ∧
    Event.signCall ∈ (deploy_contract_backend envPriceFail false "artifact.json" "0xkey").2 ∧
    Event.submitCall "0xtxhash" ∈
      (deploy_contract_backend envPriceFail false "artifact.json" "0xkey").2 :=
  gas_price_fallback_proceeds envPriceFail "artifact.json" "0xkey" "0xSenderAddress"
    "[]" "0x6003600501" "0xconstructorcode" "0xsignedrawtx" "0xtxhash" "price rpc down"
    5 21000 31337
    (by decide) (by decide) rfl rfl rfl rfl rfl rfl rfl rfl rfl rfl rfl

/-- C7: when gas estimation fails with message `e`, the pipeline returns
the estimation-stage failure embedding `e`; the reason is non-empty, and
the whole outcome is unchanged whatever the diagnostic gas-price lookup
inside the error handler does, so a failing secondary lookup never
overrides or suppresses the primary reason. -/
theorem gas_estimation_failure_reason (env : Env) (w3IsNone : Bool)
    (artifact_path private_key a abi bytecode e : String) (nonce : Nat)
    (hk : private_key ≠ "") (hp : artifact_path ≠ "") (hw : w3IsNone = false)
    (hc : env.isConnected = .ok true) (hpe : env.pathExists = true)
    (ha : env.fromKey = .ok a)
    (hf : env.fileContent = .doc (some abi) (some bytecode))
    (hn : env.getNonce = .ok nonce)
    (hest : env.estimateGas = .exn e) :
    (deploy_contract_backend env w3IsNone artifact_path private_key).1 =
      .ret [("error", estimateGasErrorMsg e)] ∧
    estimateGasErrorMsg e ≠ "" ∧
    (∀ d, deploy_contract_backend { env with gasPriceDiag := d }
        w3IsNone artifact_path private_key =
      deploy_contract_backend env w3IsNone artifact_path private_key) := by
  subst hw
  refine ⟨?_, ?_, ?_⟩
  · simp [deploy_contract_backend, deployBody, hk, hp, hc, hpe, ha, hf, hn, hest]
  · intro hemp
    have hlen := congrArg String.length hemp
    simp only [estimateGasErrorMsg, String.length_append] at hlen
    have h1 : 0 < ("Error estimating gas: ").length := by decide
    have h2 : ("" : String).length = 0 := rfl
    omega
  · intro d
    refine Prod.ext ?_ ?_ <;>
      simp [deploy_contract_backend, deployBody, hk, hp, hc, hpe, ha, hf, hn, hest]

/-- C7 witness: the estimation-failure behaviour evaluated on a concrete
run whose diagnostic price lookup also fails, and on the same run with
the diagnostic lookup succeeding instead: the outcome is identical. -/
theorem gas_estimation_failure_witness :
    (deploy_contract_backend envEstFail false "artifact.json" "0xkey").1 =
      .ret [("error", estimateGasErrorMsg "execution reverted")] ∧
    estimateGasErrorMsg "execution reverted" ≠ "" ∧
    deploy_contract_backend { envEstFail with gasPriceDiag := .ok 77 }
        false "artifact.json" "0xkey" =
      deploy_contract_backend envEstFail false "artifact.json" "0xkey" :=
  ⟨(gas_estimation_failure_reason envEstFail false "artifact.json" "0xkey"
      "0xSenderAddress" "[]" "0x6003600501" "execution reverted" 5
      (by decide) (by decide) rfl rfl rfl rfl rfl rfl rfl).1,
   (gas_estimation_failure_reason envEstFail false "artifact.json" "0xkey"
      "0xSenderAddress" "[]" "0x6003600501" "execution reverted" 5
      (by decide) (by decide) rfl rfl rfl rfl rfl rfl rfl).2.1,
   (gas_estimation_failure_reason envEstFail false "artifact.json" "0xkey"
      "0xSenderAddress" "[]" "0x6003600501" "execution reverted" 5
      (by decide) (by decide) rfl rfl rfl rfl rfl rfl rfl).2.2 (.ok 77)⟩

/-- C8: a non-existing artifact path makes the pipeline fail with the
not-found reason from the pre-open existence check, and the trace shows
that neither a nonce query nor a gas estimation was ever issued: only
the connectivity probe has run. -/
theorem artifact_missing_fails_before_queries (env : Env)
    (artifact_path private_key : String) (hk : private_key ≠ "")
    (hp : artifact_path ≠ "") (hc : env.isConnected = .ok true)
    (hpe : env.pathExists = false) :
    deploy_contract_backend env false artifact_path private_key =
      (.ret [("error", notFoundMsg1 artifact_path)], [.isConnectedCall]) ∧
    Event.nonceCall ∉ (deploy_contract_backend env false artifact_path private_key).2 ∧
    Event.estimateGasCall ∉
      (deploy_contract_backend env false artifact_path private_key).2 := by
  have h1 : deploy_contract_backend env false artifact_path private_key =
      (.ret [("error", notFoundMsg1 artifact_path)], [.isConnectedCall]) := by
    simp [deploy_contract_backend, hk, hp, hc, hpe]
  refine ⟨h1, ?_, ?_⟩ <;> rw [h1] <;> simp

/-- C8 witness: the fail-fast behaviour evaluated on a concrete run
whose artifact file is missing. -/
theorem artifact_missing_witness :
    deploy_contract_backend envNoFile false "artifact.json" "0xkey" =
      (.ret [("error", notFoundMsg1 "artifact.json")], [.isConnectedCall]) ∧
    Event.nonceCall ∉ (deploy_contract_backend envNoFile false "artifact.json" "0xkey").2 ∧
    Event.estimateGasCall ∉
      (deploy_contract_backend envNoFile false "artifact.json" "0xkey").2 :=
  artifact_missing_fails_before_queries envNoFile "artifact.json" "0xkey"
    (by decide) (by decide) rfl rfl

/-- Every dict the `try` body produces has exactly one key, either
`contractAddress` or `error`. -/
theorem deployBody_single_key (env : Env) (path : String) :
    singleKeyRecord (deployBody env path).1 := by
  unfold singleKeyRecord deployBody
  repeat' split
  all_goals first
    | exact ⟨_, Or.inl rfl⟩
    | exact ⟨_, Or.inr rfl⟩

/-- C9 counterexample: the connectivity probe at line 46 sits outside
the `try` that starts at line 55, so when the probe raises the exception
escapes `deploy_contract_backend`: no record is returned to the caller
at all, refuting totality over every behaviour of the chain client. -/
theorem deploy_raises_ce :
    (deploy_contract_backend envProbeRaises false "artifact.json" "0xkey").1 =
      .raised "malformed node response" := rfl

/-- C9 (amended): provided the connectivity probe returns rather than
raises, the deployment function is total at its boundary: it never
raises to its caller, and it always returns a dict containing exactly
one of the two keys `contractAddress` or `error`, never both and never
neither. -/
theorem deploy_total_single_key (env : Env) (w3IsNone : Bool)
    (artifact_path private_key : String) (b : Bool)
    (hconn : env.isConnected = .ok b) :
    ∃ d, (deploy_contract_backend env w3IsNone artifact_path private_key).1 = .ret d ∧
      singleKeyRecord d := by
  by_cases hk : private_key = ""
  · refine ⟨[("error", keyMissingMsg)], ?_, _, Or.inr rfl⟩
    simp [deploy_contract_backend, hk]
  · by_cases hp : artifact_path = ""
    · refine ⟨[("error", pathMissingMsg)], ?_, _, Or.inr rfl⟩
      simp [deploy_contract_backend, hk, hp]
    · cases w3IsNone with
      | true =>
        refine ⟨[("error", notConnectedMsg env.rpcUrl)], ?_, _, Or.inr rfl⟩
        simp [deploy_contract_backend, hk, hp]
      | false =>
        cases b with
        | false =>
          refine ⟨[("error", notConnectedMsg env.rpcUrl)], ?_, _, Or.inr rfl⟩
          simp [deploy_contract_backend, hk, hp, hconn]
        | true =>
          cases hpe : env.pathExists with
          | false =>
            refine ⟨[("error", notFoundMsg1 artifact_path)], ?_, _, Or.inr rfl⟩
            simp [deploy_contract_backend, hk, hp, hconn, hpe]
          | true =>
            refine ⟨(deployBody env artifact_path).1, ?_,
              deployBody_single_key env artifact_path⟩
            simp [deploy_contract_backend, hk, hp, hconn, hpe]

/-- C9 witness: the amended totality statement evaluated on the fully
successful concrete run. -/
theorem deploy_total_single_key_witness :
    ∃ d, (deploy_contract_backend baseEnv false "artifact.json" "0xkey").1 = .ret d ∧
      singleKeyRecord d :=
  deploy_total_single_key baseEnv false "artifact.json" "0xkey" true rfl

/-- C10: the migration-threshold constructor argument (index 2 of the
list passed to the pipeline) is the constant 10^16 wei whatever the
request's name and symbol, the fee recipient, and the connectivity of
the client; in particular the connected branch (`w3.to_wei(0.01,
'ether')`) and the disconnected fallback branch (`10**16`) compute the
same value. -/
theorem migration_threshold_constant (token_name token_symbol fee_recipient : String)
    (connected : Bool) :
    (constructor_arguments token_name token_symbol connected fee_recipient).get? 2 =
      some (.int (10 ^ 16)) ∧
    lp_migration_market_cap_wei true = lp_migration_market_cap_wei false := by
  have ht : lp_migration_market_cap_wei true = 10 ^ 16 := by
    show to_wei_ether (1 / 100) = 10 ^ 16
    exact to_wei_ether_centi
  have hf : lp_migration_market_cap_wei false = 10 ^ 16 := rfl
  refine ⟨?_, ht.trans hf.symm⟩
  show some (ConstructorArg.int (lp_migration_market_cap_wei connected)) = _
  cases connected
  · rw [hf]
  · rw [ht]

end BackendApp
